import Mathlib

/-!
Shallow embedding of the ThermoHub8 joystick input state machine and the
display-scroll controller, translated from `src/esp32/Joystick.cpp`,
`src/esp32/Joystick.h` and `src/src/thermohub8.cpp`.

Machine integers: the C++ code stores calibration values, raw ADC readings
and scroll offsets in `int`, and timestamps in `unsigned long` (32 bits on
the target).  Values are embedded as `Int` (the magnitudes involved are far
from `int` overflow), and the one place where unsigned wrap-around matters
— `currentTime - lastTime` on `unsigned long` — is embedded explicitly as
subtraction modulo `2^32` (`wsub` below).

Side effects (invoking a registered callback, writing the committed state
fields, LCD clear/redraw) are recorded as explicit event lists in the order
the corresponding statements execute in the source, so that ordering claims
about "handler invoked before/after state commit" are statable.
-/

namespace ThermoHub8

/-- The `JoystickPosition` enum of `Joystick.h` (JOY_CENTER, JOY_UP,
JOY_DOWN, JOY_LEFT, JOY_RIGHT). -/
inductive JoystickPosition
  | center
  | up
  | down
  | left
  | right
deriving DecidableEq, Repr

/-- The calibration configuration of the `Joystick` class: `_minVal`,
`_maxVal`, `_centerVal`, `_deadzone` (set by `setThresholds`) and
`_invertX`, `_invertY` (set by `setInvertX` / `setInvertY`).  Constant
during a poll. -/
structure Config where
  minVal : Int
  maxVal : Int
  centerVal : Int
  deadzone : Int
  invertX : Bool
  invertY : Bool
deriving DecidableEq, Repr

/-- `_debounceDelay = 50` (Joystick.h line 85). -/
def debounceDelay : Nat := 50

/-- `unsigned long` subtraction `a - b` modulo `2^32`, as the ESP32 target
computes `currentTime - _lastSwitchTime`.  Both operands are reduced first,
so the result is correct for any `Nat` representatives. -/
def wsub (a b : Nat) : Nat :=
  (2 ^ 32 + a % 2 ^ 32 - b % 2 ^ 32) % 2 ^ 32

/-- The X-axis inversion of `Joystick::calculatePosition` (lines 238-240):
`if (_invertX) x = _maxVal - (x - _minVal) + _minVal`. -/
def effectiveX (cfg : Config) (x : Int) : Int :=
  if cfg.invertX then cfg.maxVal - (x - cfg.minVal) + cfg.minVal else x

/-- The Y-axis inversion of `Joystick::calculatePosition` (lines 241-243). -/
def effectiveY (cfg : Config) (y : Int) : Int :=
  if cfg.invertY then cfg.maxVal - (y - cfg.minVal) + cfg.minVal else y

/-- `Joystick::calculatePosition` (Joystick.cpp lines 233-286), as a pure
function of the calibration and the current raw readings `_currentX`,
`_currentY`.  The debug block (lines 249-263) only prints and is omitted. -/
def calculatePosition (cfg : Config) (currentX currentY : Int) : JoystickPosition :=
  let deltaX := effectiveX cfg currentX - cfg.centerVal
  let deltaY := effectiveY cfg currentY - cfg.centerVal
  if |deltaX| < cfg.deadzone ∧ |deltaY| < cfg.deadzone then
    JoystickPosition.center
  else if |deltaX| > |deltaY| then
    if deltaX > 0 then JoystickPosition.right else JoystickPosition.left
  else
    if deltaY > 0 then JoystickPosition.up else JoystickPosition.down

/-- The mutable member variables of the `Joystick` class that `update`
reads or writes (Joystick.h lines 64-85, minus the constant pins and
calibration). -/
structure State where
  currentX : Int
  currentY : Int
  currentSwitch : Bool
  currentPosition : JoystickPosition
  previousPosition : JoystickPosition
  previousSwitch : Bool
  lastSwitchTime : Nat
  lastPositionTime : Nat
deriving DecidableEq, Repr

/-- Which callback slots hold a non-null function pointer (`_callbackLeft`
... `_callbackSwitch`).  The callbacks themselves are external code; an
invocation is recorded as an event. -/
structure Handlers where
  left : Bool
  right : Bool
  up : Bool
  down : Bool
  center : Bool
  switch : Bool
deriving DecidableEq, Repr

/-- One poll's inputs to `Joystick::update`: `millis()`, the two
`analogRead` results, and `digitalRead(_pinSwitch) == LOW` (the button is
active-low, so `switchLow = true` means pressed). -/
structure PollInput where
  now : Nat
  rawX : Int
  rawY : Int
  switchLow : Bool
deriving DecidableEq, Repr

/-- The observable side effects of one `Joystick::update` call, in the
order the corresponding statements execute.  `invoke…` events stand for
calling the corresponding registered callback; `commitButton` stands for
the pair of writes `_previousSwitch = switchPressed; _lastSwitchTime =
currentTime` (lines 171-172); `commitPosition` for the writes
`_previousPosition = _currentPosition = newPosition; _lastPositionTime =
currentTime` (lines 211-213). -/
inductive JEvent
  | invokeSwitch
  | invokeLeft
  | invokeRight
  | invokeUp
  | invokeDown
  | invokeCenter
  | commitButton
  | commitPosition
deriving DecidableEq, Repr

/-- The `switch (newPosition)` statement of `Joystick::update` (lines
193-209): invoke the callback selected by the new position, if that slot is
registered. -/
def invokeEvents (hnd : Handlers) : JoystickPosition → List JEvent
  | JoystickPosition.left => if hnd.left then [JEvent.invokeLeft] else []
  | JoystickPosition.right => if hnd.right then [JEvent.invokeRight] else []
  | JoystickPosition.up => if hnd.up then [JEvent.invokeUp] else []
  | JoystickPosition.down => if hnd.down then [JEvent.invokeDown] else []
  | JoystickPosition.center => if hnd.center then [JEvent.invokeCenter] else []

/-- The button channel of `Joystick::update` (lines 157-175): the debounced
edge check, the callback invocation on a press, the commit of
`_previousSwitch` / `_lastSwitchTime`, and the unconditional store
`_currentSwitch = switchPressed` at line 175. -/
def buttonStep (hnd : Handlers) (s : State) (inp : PollInput) :
    State × List JEvent :=
  let r :=
    if inp.switchLow ≠ s.previousSwitch then
      if debounceDelay < wsub inp.now s.lastSwitchTime then
        ({ s with previousSwitch := inp.switchLow, lastSwitchTime := inp.now },
          (if inp.switchLow = true ∧ s.previousSwitch = false then
            (if hnd.switch then [JEvent.invokeSwitch] else [])
          else []) ++ [JEvent.commitButton])
      else (s, [])
    else (s, [])
  ({ r.1 with currentSwitch := inp.switchLow }, r.2)

/-- The position channel of `Joystick::update` (lines 177-215):
`calculatePosition` on the stored `_currentX`/`_currentY`, the debounced
transition check, the callback dispatch, and the commit of
`_previousPosition`, `_currentPosition` and `_lastPositionTime`. -/
def positionStep (cfg : Config) (hnd : Handlers) (s : State) (inp : PollInput) :
    State × List JEvent :=
  let newPosition := calculatePosition cfg s.currentX s.currentY
  if newPosition ≠ s.previousPosition then
    if debounceDelay < wsub inp.now s.lastPositionTime then
      ({ s with previousPosition := newPosition, currentPosition := newPosition,
                lastPositionTime := inp.now },
        invokeEvents hnd newPosition ++ [JEvent.commitPosition])
    else (s, [])
  else (s, [])

/-- `Joystick::update` (Joystick.cpp lines 136-216): store the raw analog
readings into `_currentX`/`_currentY`, run the button channel, then the
position channel.  The returned event list is in execution order.  The two
debug blocks only print and are omitted. -/
def update (cfg : Config) (hnd : Handlers) (s : State) (inp : PollInput) :
    State × List JEvent :=
  let s0 := { s with currentX := inp.rawX, currentY := inp.rawY }
  let br := buttonStep hnd s0 inp
  let pr := positionStep cfg hnd br.1 inp
  (pr.1, br.2 ++ pr.2)

/-- `Joystick::getPosition` (lines 292-294). -/
def getPosition (s : State) : JoystickPosition :=
  s.currentPosition

/-- `Joystick::isSwitchPressed` (lines 316-318). -/
def isSwitchPressed (s : State) : Bool :=
  s.currentSwitch

/-- `NUM_SENSORS` (thermohub8.cpp line 42). -/
def NUM_SENSORS : Int := 8

/-- `LCD_ROWS` (thermohub8.cpp line 71). -/
def LCD_ROWS : Int := 4

/-- The display navigation state of thermohub8.cpp (lines 118-119):
`displayOffset` and `maxDisplayOffset`. -/
structure ScrollState where
  displayOffset : Int
  maxDisplayOffset : Int
deriving DecidableEq, Repr

/-- `maxDisplayOffset = max(0, NUM_SENSORS - LCD_ROWS)` as computed by
`initDisplay` (thermohub8.cpp line 359). -/
def initMaxDisplayOffset : Int :=
  max 0 (NUM_SENSORS - LCD_ROWS)

/-- Display side effects of a scroll call: `lcd.clear()` and the
`updateDisplay()` full redraw. -/
inductive DEvent
  | clear
  | redraw
deriving DecidableEq, Repr

/-- `scrollUp` (thermohub8.cpp lines 496-504): clear the LCD, then, only if
`displayOffset > 0`, decrement the offset and redraw. -/
def scrollUp (s : ScrollState) : ScrollState × List DEvent :=
  if s.displayOffset > 0 then
    ({ s with displayOffset := s.displayOffset - 1 }, [DEvent.clear, DEvent.redraw])
  else
    (s, [DEvent.clear])

/-- `scrollDown` (thermohub8.cpp lines 512-520): clear the LCD, then, only
if `displayOffset < maxDisplayOffset + 4` (the `+4` admits the four menu
items), increment the offset and redraw. -/
def scrollDown (s : ScrollState) : ScrollState × List DEvent :=
  if s.displayOffset < s.maxDisplayOffset + 4 then
    ({ s with displayOffset := s.displayOffset + 1 }, [DEvent.clear, DEvent.redraw])
  else
    (s, [DEvent.clear])

/-- A directional scroll request, as issued by the joystick Up/Down
callbacks `onJoystickUp` / `onJoystickDown` (thermohub8.cpp lines 530-544). -/
inductive ScrollOp
  | up
  | down
deriving DecidableEq, Repr

/-- Apply one scroll request to the navigation state. -/
def applyOp (s : ScrollState) : ScrollOp → ScrollState
  | ScrollOp.up => (scrollUp s).1
  | ScrollOp.down => (scrollDown s).1

/-- Apply a sequence of scroll requests, in order. -/
def applyOps (s : ScrollState) : List ScrollOp → ScrollState
  | [] => s
  | op :: rest => applyOps (applyOp s op) rest

/-- Whether an event is a position-channel callback invocation. -/
def isPosInvokeEvent : JEvent → Bool
  | JEvent.invokeLeft => true
  | JEvent.invokeRight => true
  | JEvent.invokeUp => true
  | JEvent.invokeDown => true
  | JEvent.invokeCenter => true
  | _ => false

/-- Whether an event is the button-channel callback invocation. -/
def isButtonInvokeEvent : JEvent → Bool
  | JEvent.invokeSwitch => true
  | _ => false

/-- Whether the callback slot for a position is registered (non-null). -/
def posRegistered (hnd : Handlers) : JoystickPosition → Bool
  | JoystickPosition.left => hnd.left
  | JoystickPosition.right => hnd.right
  | JoystickPosition.up => hnd.up
  | JoystickPosition.down => hnd.down
  | JoystickPosition.center => hnd.center

/-- The invocation event for the callback of a given position. -/
def posInvoke : JoystickPosition → JEvent
  | JoystickPosition.left => JEvent.invokeLeft
  | JoystickPosition.right => JEvent.invokeRight
  | JoystickPosition.up => JEvent.invokeUp
  | JoystickPosition.down => JEvent.invokeDown
  | JoystickPosition.center => JEvent.invokeCenter

/-- Scanner for `commitsPrecedeInvokes`: `bc` / `pc` record whether the
button / position commit has already occurred earlier in the trace. -/
def cpiAux : Bool → Bool → List JEvent → Bool
  | _, _, [] => true
  | _, pc, JEvent.commitButton :: rest => cpiAux true pc rest
  | bc, _, JEvent.commitPosition :: rest => cpiAux bc true rest
  | bc, pc, JEvent.invokeSwitch :: rest => bc && cpiAux bc pc rest
  | bc, pc, e :: rest =>
    if isPosInvokeEvent e then pc && cpiAux bc pc rest else cpiAux bc pc rest

/-- Holds of a trace in which every callback invocation is preceded by the
state commit of its own channel — the ordering the spec asserts ("the
dispatcher has already committed its state transition before invoking the
handler"). -/
def commitsPrecedeInvokes (tr : List JEvent) : Bool :=
  cpiAux false false tr

/-- Holds of a trace in which every callback invocation is immediately
followed by the state commit of its own channel — the ordering the code
actually produces. -/
def invokesImmediatelyCommitted : List JEvent → Bool
  | [] => true
  | JEvent.invokeSwitch :: JEvent.commitButton :: rest =>
    invokesImmediatelyCommitted rest
  | JEvent.invokeSwitch :: _ => false
  | JEvent.invokeLeft :: JEvent.commitPosition :: rest =>
    invokesImmediatelyCommitted rest
  | JEvent.invokeLeft :: _ => false
  | JEvent.invokeRight :: JEvent.commitPosition :: rest =>
    invokesImmediatelyCommitted rest
  | JEvent.invokeRight :: _ => false
  | JEvent.invokeUp :: JEvent.commitPosition :: rest =>
    invokesImmediatelyCommitted rest
  | JEvent.invokeUp :: _ => false
  | JEvent.invokeDown :: JEvent.commitPosition :: rest =>
    invokesImmediatelyCommitted rest
  | JEvent.invokeDown :: _ => false
  | JEvent.invokeCenter :: JEvent.commitPosition :: rest =>
    invokesImmediatelyCommitted rest
  | JEvent.invokeCenter :: _ => false
  | _ :: rest => invokesImmediatelyCommitted rest

/-! ### Helper lemmas about the two channels of `update` -/

theorem buttonStep_eq (hnd : Handlers) (s : State) (inp : PollInput) :
    buttonStep hnd s inp =
      if inp.switchLow ≠ s.previousSwitch ∧
          debounceDelay < wsub inp.now s.lastSwitchTime then
        ({ s with previousSwitch := inp.switchLow, lastSwitchTime := inp.now,
                  currentSwitch := inp.switchLow },
          (if inp.switchLow = true ∧ s.previousSwitch = false then
            (if hnd.switch then [JEvent.invokeSwitch] else [])
          else []) ++ [JEvent.commitButton])
      else ({ s with currentSwitch := inp.switchLow }, []) := by
  unfold buttonStep
  by_cases h1 : inp.switchLow ≠ s.previousSwitch
  · by_cases h2 : debounceDelay < wsub inp.now s.lastSwitchTime
    · simp [h1, h2]
    · simp [h1, h2]
  · simp [h1]

theorem positionStep_eq (cfg : Config) (hnd : Handlers) (s : State)
    (inp : PollInput) :
    positionStep cfg hnd s inp =
      if calculatePosition cfg s.currentX s.currentY ≠ s.previousPosition ∧
          debounceDelay < wsub inp.now s.lastPositionTime then
        ({ s with
            previousPosition := calculatePosition cfg s.currentX s.currentY,
            currentPosition := calculatePosition cfg s.currentX s.currentY,
            lastPositionTime := inp.now },
          invokeEvents hnd (calculatePosition cfg s.currentX s.currentY) ++
            [JEvent.commitPosition])
      else (s, []) := by
  unfold positionStep
  by_cases h1 : calculatePosition cfg s.currentX s.currentY ≠ s.previousPosition
  · by_cases h2 : debounceDelay < wsub inp.now s.lastPositionTime
    · simp [h1, h2]
    · simp [h1, h2]
  · simp [h1]

theorem update_fst (cfg : Config) (hnd : Handlers) (s : State) (inp : PollInput) :
    (update cfg hnd s inp).1 =
      (positionStep cfg hnd
        (buttonStep hnd { s with currentX := inp.rawX, currentY := inp.rawY } inp).1
        inp).1 :=
  rfl

theorem update_snd (cfg : Config) (hnd : Handlers) (s : State) (inp : PollInput) :
    (update cfg hnd s inp).2 =
      (buttonStep hnd { s with currentX := inp.rawX, currentY := inp.rawY } inp).2 ++
      (positionStep cfg hnd
        (buttonStep hnd { s with currentX := inp.rawX, currentY := inp.rawY } inp).1
        inp).2 :=
  rfl

theorem invokeEvents_eq (hnd : Handlers) (p : JoystickPosition) :
    invokeEvents hnd p =
      if posRegistered hnd p then [posInvoke p] else [] := by
  cases p <;> rfl

theorem buttonStep_fields (hnd : Handlers) (s : State) (inp : PollInput) :
    (buttonStep hnd s inp).1.previousPosition = s.previousPosition ∧
    (buttonStep hnd s inp).1.lastPositionTime = s.lastPositionTime ∧
    (buttonStep hnd s inp).1.currentPosition = s.currentPosition ∧
    (buttonStep hnd s inp).1.currentX = s.currentX ∧
    (buttonStep hnd s inp).1.currentY = s.currentY ∧
    (buttonStep hnd s inp).1.currentSwitch = inp.switchLow := by
  rw [buttonStep_eq]
  split <;> simp

theorem positionStep_fields (cfg : Config) (hnd : Handlers) (s : State)
    (inp : PollInput) :
    (positionStep cfg hnd s inp).1.previousSwitch = s.previousSwitch ∧
    (positionStep cfg hnd s inp).1.lastSwitchTime = s.lastSwitchTime ∧
    (positionStep cfg hnd s inp).1.currentSwitch = s.currentSwitch := by
  rw [positionStep_eq]
  split <;> simp

theorem buttonStep_trace_filter (hnd : Handlers) (s : State) (inp : PollInput) :
    (buttonStep hnd s inp).2.filter isPosInvokeEvent = [] := by
  rw [buttonStep_eq]
  split
  · split
    · split <;> rfl
    · rfl
  · rfl

theorem invokeEvents_filter_button (hnd : Handlers) (p : JoystickPosition) :
    (invokeEvents hnd p).filter isButtonInvokeEvent = [] := by
  cases p <;> (rw [invokeEvents_eq]; split <;> rfl)

theorem positionStep_trace_filter (cfg : Config) (hnd : Handlers) (s : State)
    (inp : PollInput) :
    (positionStep cfg hnd s inp).2.filter isButtonInvokeEvent = [] := by
  rw [positionStep_eq]
  split
  · simp [List.filter_append, invokeEvents_filter_button]
    rfl
  · rfl

theorem invokeEvents_filter_pos (hnd : Handlers) (p : JoystickPosition) :
    (invokeEvents hnd p).filter isPosInvokeEvent = invokeEvents hnd p := by
  cases p <;> (rw [invokeEvents_eq]; split <;> rfl)

/-- One-step characterization of `update`: the poll's effect on every state
field and the full event trace, as functions of the previous state and the
poll input. -/
theorem update_eq (cfg : Config) (hnd : Handlers) (s : State) (inp : PollInput) :
    update cfg hnd s inp =
      ({ currentX := inp.rawX
         currentY := inp.rawY
         currentSwitch := inp.switchLow
         currentPosition :=
           if calculatePosition cfg inp.rawX inp.rawY ≠ s.previousPosition ∧
               debounceDelay < wsub inp.now s.lastPositionTime then
             calculatePosition cfg inp.rawX inp.rawY
           else s.currentPosition
         previousPosition :=
           if calculatePosition cfg inp.rawX inp.rawY ≠ s.previousPosition ∧
               debounceDelay < wsub inp.now s.lastPositionTime then
             calculatePosition cfg inp.rawX inp.rawY
           else s.previousPosition
         previousSwitch :=
           if inp.switchLow ≠ s.previousSwitch ∧
               debounceDelay < wsub inp.now s.lastSwitchTime then
             inp.switchLow
           else s.previousSwitch
         lastSwitchTime :=
           if inp.switchLow ≠ s.previousSwitch ∧
               debounceDelay < wsub inp.now s.lastSwitchTime then
             inp.now
           else s.lastSwitchTime
         lastPositionTime :=
           if calculatePosition cfg inp.rawX inp.rawY ≠ s.previousPosition ∧
               debounceDelay < wsub inp.now s.lastPositionTime then
             inp.now
           else s.lastPositionTime },
       (if inp.switchLow ≠ s.previousSwitch ∧
           debounceDelay < wsub inp.now s.lastSwitchTime then
          (if inp.switchLow = true ∧ s.previousSwitch = false then
            (if hnd.switch then [JEvent.invokeSwitch] else [])
          else []) ++ [JEvent.commitButton]
        else []) ++
       (if calculatePosition cfg inp.rawX inp.rawY ≠ s.previousPosition ∧
           debounceDelay < wsub inp.now s.lastPositionTime then
          invokeEvents hnd (calculatePosition cfg inp.rawX inp.rawY) ++
            [JEvent.commitPosition]
        else [])) := by
  simp only [update]
  rw [buttonStep_eq]
  dsimp only
  by_cases h1 : inp.switchLow ≠ s.previousSwitch ∧
      debounceDelay < wsub inp.now s.lastSwitchTime
  · rw [if_pos h1, positionStep_eq]
    dsimp only
    by_cases h2 : calculatePosition cfg inp.rawX inp.rawY ≠ s.previousPosition ∧
        debounceDelay < wsub inp.now s.lastPositionTime
    · rw [if_pos h2, if_pos h1, if_pos h2, if_pos h2, if_pos h2, if_pos h1,
        if_pos h1, if_pos h2]
    · rw [if_neg h2, if_neg h2, if_neg h2, if_pos h1, if_pos h1, if_pos h1,
        if_neg h2, if_neg h2]
  · rw [if_neg h1, positionStep_eq]
    dsimp only
    by_cases h2 : calculatePosition cfg inp.rawX inp.rawY ≠ s.previousPosition ∧
        debounceDelay < wsub inp.now s.lastPositionTime
    · rw [if_pos h2, if_pos h2, if_pos h2, if_pos h2, if_neg h1, if_neg h1,
        if_neg h1, if_pos h2]
    · rw [if_neg h2, if_neg h2, if_neg h2, if_neg h1, if_neg h1, if_neg h1,
        if_neg h2, if_neg h2]

/-- The button-channel part of a poll's trace contains no position-callback
invocation, whatever the guards evaluate to. -/
theorem filter_pos_button_trace (hnd : Handlers) (c1 c2 : Prop)
    [Decidable c1] [Decidable c2] :
    ((if c1 then
        (if c2 then (if hnd.switch then [JEvent.invokeSwitch] else []) else []) ++
          [JEvent.commitButton]
      else []) : List JEvent).filter isPosInvokeEvent = [] := by
  split_ifs <;> rfl

/-- The position-channel part of a poll's trace contains no button-callback
invocation, whatever the guard evaluates to. -/
theorem filter_button_pos_trace (hnd : Handlers) (p : JoystickPosition)
    (c : Prop) [Decidable c] :
    ((if c then invokeEvents hnd p ++ [JEvent.commitPosition] else []) :
      List JEvent).filter isButtonInvokeEvent = [] := by
  split
  · rw [List.filter_append, invokeEvents_filter_button]
    rfl
  · rfl

theorem buttonStep_trace_shape (hnd : Handlers) (s : State) (inp : PollInput) :
    (buttonStep hnd s inp).2 = [] ∨
    (buttonStep hnd s inp).2 = [JEvent.commitButton] ∨
    (buttonStep hnd s inp).2 = [JEvent.invokeSwitch, JEvent.commitButton] := by
  rw [buttonStep_eq]
  split
  · split
    · split
      · right; right; rfl
      · right; left; rfl
    · right; left; rfl
  · left; rfl

theorem positionStep_trace_shape (cfg : Config) (hnd : Handlers) (s : State)
    (inp : PollInput) :
    (positionStep cfg hnd s inp).2 = [] ∨
    (positionStep cfg hnd s inp).2 = [JEvent.commitPosition] ∨
    ∃ p, (positionStep cfg hnd s inp).2 = [posInvoke p, JEvent.commitPosition] := by
  rw [positionStep_eq]
  split
  · rw [invokeEvents_eq]
    split
    · right; right; exact ⟨_, rfl⟩
    · right; left; rfl
  · left; rfl

theorem iic_posInvoke_pair (p : JoystickPosition) (l : List JEvent) :
    invokesImmediatelyCommitted (posInvoke p :: JEvent.commitPosition :: l) =
      invokesImmediatelyCommitted l := by
  cases p <;> rfl

/-! ### Claim theorems -/

/-- Claim C6: `calculatePosition` returns Center exactly when both
post-inversion deltas are strictly inside the deadzone; otherwise, when
`|deltaX| > |deltaY|` it returns Right for `deltaX > 0` and Left for
`deltaX ≤ 0`, and when `|deltaX| ≤ |deltaY|` (ties included) it takes the
Y-axis branch, returning Up for `deltaY > 0` and Down for `deltaY ≤ 0`;
with `centerValue = 2000` and `deadzoneRadius = 500`, `x = 2499` is Center
and `x = 2500` is Right. -/
theorem calculatePosition_characterization (cfg : Config) (rx ry : Int) :
    (calculatePosition cfg rx ry = JoystickPosition.center ↔
      |effectiveX cfg rx - cfg.centerVal| < cfg.deadzone ∧
      |effectiveY cfg ry - cfg.centerVal| < cfg.deadzone) ∧
    (¬(|effectiveX cfg rx - cfg.centerVal| < cfg.deadzone ∧
        |effectiveY cfg ry - cfg.centerVal| < cfg.deadzone) →
      (|effectiveX cfg rx - cfg.centerVal| > |effectiveY cfg ry - cfg.centerVal| →
        calculatePosition cfg rx ry =
          (if effectiveX cfg rx - cfg.centerVal > 0 then JoystickPosition.right
           else JoystickPosition.left)) ∧
      (|effectiveX cfg rx - cfg.centerVal| ≤ |effectiveY cfg ry - cfg.centerVal| →
        calculatePosition cfg rx ry =
          (if effectiveY cfg ry - cfg.centerVal > 0 then JoystickPosition.up
           else JoystickPosition.down))) ∧
    calculatePosition ⟨0, 4095, 2000, 500, false, false⟩ 2499 2000 =
      JoystickPosition.center ∧
    calculatePosition ⟨0, 4095, 2000, 500, false, false⟩ 2500 2000 =
      JoystickPosition.right := by
  refine ⟨?_, fun hout => ⟨fun hx => ?_, fun hy => ?_⟩, by decide, by decide⟩
  · simp only [calculatePosition]
    constructor
    · intro hc
      by_contra hout
      rw [if_neg hout] at hc
      revert hc
      split <;> split <;> simp
    · intro hin
      rw [if_pos hin]
  · simp only [calculatePosition]
    rw [if_neg hout, if_pos hx]
  · simp only [calculatePosition]
    rw [if_neg hout, if_neg (not_lt.mpr hy)]

/-- Claim C7: for every calibration, classifying with `invertX = true` on a
sample `x` equals classifying with `invertX = false` on the reflected
sample `maxValue - (x - minValue) + minValue`, and analogously for
`invertY`. -/
theorem calculatePosition_inversion_roundtrip (cfg : Config) (rx ry : Int) :
    calculatePosition { cfg with invertX := true } rx ry =
      calculatePosition { cfg with invertX := false }
        (cfg.maxVal - (rx - cfg.minVal) + cfg.minVal) ry ∧
    calculatePosition { cfg with invertY := true } rx ry =
      calculatePosition { cfg with invertY := false } rx
        (cfg.maxVal - (ry - cfg.minVal) + cfg.minVal) :=
  ⟨rfl, rfl⟩

/-- Claim C9: with `deadzoneRadius = 0`, `calculatePosition` never returns
Center, and a sample whose post-inversion reading rests exactly at the
calibrated center (both deltas zero) is classified as Down. -/
theorem zero_deadzone_never_center (cfg : Config) (hdz : cfg.deadzone = 0) :
    (∀ rx ry : Int, calculatePosition cfg rx ry ≠ JoystickPosition.center) ∧
    (∀ rx ry : Int, effectiveX cfg rx = cfg.centerVal →
      effectiveY cfg ry = cfg.centerVal →
      calculatePosition cfg rx ry = JoystickPosition.down) := by
  constructor
  · intro rx ry
    simp only [calculatePosition, hdz]
    have h1 : ¬(|effectiveX cfg rx - cfg.centerVal| < 0 ∧
        |effectiveY cfg ry - cfg.centerVal| < 0) := by
      intro h
      exact absurd h.1 (not_lt.mpr (abs_nonneg _))
    rw [if_neg h1]
    split
    · split <;> simp
    · split <;> simp
  · intro rx ry hx hy
    simp only [calculatePosition, hdz, hx, hy, sub_self, abs_zero]
    norm_num

/-- Witness for C9 at the concrete calibration `{0, 4095, 2000, 0}` and the
sample resting at the calibrated center. -/
theorem zero_deadzone_never_center_witness :
    calculatePosition ⟨0, 4095, 2000, 0, false, false⟩ 2000 2000 =
      JoystickPosition.down ∧
    calculatePosition ⟨0, 4095, 2000, 0, false, false⟩ 2000 2000 ≠
      JoystickPosition.center := by
  have h := zero_deadzone_never_center ⟨0, 4095, 2000, 0, false, false⟩ rfl
  exact ⟨h.2 2000 2000 (by decide) (by decide), h.1 2000 2000⟩

/-- Counterexample to claim C1 as stated: with `itemCount = NUM_SENSORS = 8`
and `visibleRows = LCD_ROWS = 4`, `maxDisplayOffset = 4`, yet `scrollDown`
at `offset = 4` is not a no-op — the code's bound is
`maxDisplayOffset + 4`, so the offset becomes 5. -/
theorem scrollDown_exceeds_specced_maxOffset :
    initMaxDisplayOffset = 4 ∧
    (scrollDown
        { displayOffset := 4, maxDisplayOffset := initMaxDisplayOffset }
      ).1.displayOffset = 5 := by
  constructor
  · decide
  · decide

/-- Claim C1 as amended: every sequence of `scrollUp` / `scrollDown` calls
preserves `0 ≤ offset ≤ maxDisplayOffset + 4` (the code's bound includes
the four menu items); `scrollDown` increments exactly when
`offset < maxDisplayOffset + 4` and is a no-op at the bound, and `scrollUp`
decrements exactly when `offset > 0` and is a no-op at 0. -/
theorem scroll_offset_invariant (s : ScrollState) (ops : List ScrollOp)
    (h0 : 0 ≤ s.displayOffset)
    (h1 : s.displayOffset ≤ s.maxDisplayOffset + 4) :
    (0 ≤ (applyOps s ops).displayOffset ∧
      (applyOps s ops).displayOffset ≤ s.maxDisplayOffset + 4) ∧
    (∀ t : ScrollState, (scrollUp t).1.displayOffset =
      if t.displayOffset > 0 then t.displayOffset - 1 else t.displayOffset) ∧
    (∀ t : ScrollState, (scrollDown t).1.displayOffset =
      if t.displayOffset < t.maxDisplayOffset + 4 then t.displayOffset + 1
      else t.displayOffset) := by
  refine ⟨?_, ?_, ?_⟩
  · induction ops generalizing s with
    | nil => exact ⟨h0, h1⟩
    | cons op rest ih =>
      have hmax : (applyOp s op).maxDisplayOffset = s.maxDisplayOffset := by
        cases op <;> (simp only [applyOp, scrollUp, scrollDown]; split <;> rfl)
      have h0' : 0 ≤ (applyOp s op).displayOffset := by
        cases op <;> (simp only [applyOp, scrollUp, scrollDown]; split) <;>
          first | exact h0 | (dsimp only; omega)
      have h1' : (applyOp s op).displayOffset ≤
          (applyOp s op).maxDisplayOffset + 4 := by
        rw [hmax]
        cases op <;> (simp only [applyOp, scrollUp, scrollDown]; split) <;>
          first | exact h1 | (dsimp only; omega)
      have hres := ih (applyOp s op) h0' h1'
      rw [hmax] at hres
      exact hres
  · intro t
    simp only [scrollUp]
    split <;> rfl
  · intro t
    simp only [scrollDown]
    split <;> rfl

/-- Witness for C1's amended invariant: from offset 0 with
`maxDisplayOffset = 4`, two `scrollDown` requests stay inside the bound. -/
theorem scroll_offset_invariant_witness :
    0 ≤ (applyOps { displayOffset := 0, maxDisplayOffset := initMaxDisplayOffset }
        [ScrollOp.down, ScrollOp.down]).displayOffset ∧
    (applyOps { displayOffset := 0, maxDisplayOffset := initMaxDisplayOffset }
        [ScrollOp.down, ScrollOp.down]).displayOffset ≤ initMaxDisplayOffset + 4 :=
  (scroll_offset_invariant
    { displayOffset := 0, maxDisplayOffset := initMaxDisplayOffset }
    [ScrollOp.down, ScrollOp.down] (by decide) (by decide)).1

/-- Counterexample to claim C3 as stated: a `scrollUp` call at offset 0 is
a no-op that clears the LCD but issues no redraw (`updateDisplay` runs only
inside the guard). -/
theorem noop_scroll_skips_redraw :
    (scrollUp { displayOffset := 0, maxDisplayOffset := 4 }).2 = [DEvent.clear] ∧
    DEvent.redraw ∉ (scrollUp { displayOffset := 0, maxDisplayOffset := 4 }).2 := by
  decide

/-- Claim C3 as amended: every `scrollUp` / `scrollDown` call
unconditionally clears the display, but the redraw (`updateDisplay`) is
issued only when the offset actually moves; a no-op call clears without
redrawing. -/
theorem scroll_clear_then_conditional_redraw (s : ScrollState) :
    ((scrollUp s).2 =
      if s.displayOffset > 0 then [DEvent.clear, DEvent.redraw]
      else [DEvent.clear]) ∧
    ((scrollDown s).2 =
      if s.displayOffset < s.maxDisplayOffset + 4 then
        [DEvent.clear, DEvent.redraw]
      else [DEvent.clear]) ∧
    DEvent.clear ∈ (scrollUp s).2 ∧ DEvent.clear ∈ (scrollDown s).2 := by
  refine ⟨?_, ?_, ?_, ?_⟩ <;>
    (first
      | (simp only [scrollUp]; split <;> simp)
      | (simp only [scrollDown]; split <;> simp))

/-- Counterexample to claim C2 as stated: on a poll that confirms a button
press, the trace is `[invokeSwitch, commitButton]` — the handler is invoked
BEFORE the stable state is committed, so the state transition has not
"already" been committed when the handler runs. -/
theorem handler_invoked_before_commit :
    commitsPrecedeInvokes
      (update ⟨1200, 4095, 2559, 300, false, false⟩
        ⟨true, true, true, true, true, true⟩
        ⟨0, 0, false, JoystickPosition.center, JoystickPosition.center,
          false, 0, 0⟩
        ⟨100, 2559, 2559, true⟩).2 = false ∧
    (update ⟨1200, 4095, 2559, 300, false, false⟩
        ⟨true, true, true, true, true, true⟩
        ⟨0, 0, false, JoystickPosition.center, JoystickPosition.center,
          false, 0, 0⟩
        ⟨100, 2559, 2559, true⟩).2 =
      [JEvent.invokeSwitch, JEvent.commitButton] := by
  constructor
  · decide
  · decide

/-- Claim C2 as amended: on every poll, each confirmed transition's handler
invocation is immediately FOLLOWED (not preceded) by the state commit of
its channel — the dispatcher invokes the handler first and commits
`stablePosition`/`stableButton` and the timestamp right after, within the
same poll. -/
theorem update_invoke_then_commit (cfg : Config) (hnd : Handlers) (s : State)
    (inp : PollInput) :
    invokesImmediatelyCommitted (update cfg hnd s inp).2 = true := by
  rw [update_snd]
  rcases buttonStep_trace_shape hnd
      { s with currentX := inp.rawX, currentY := inp.rawY } inp with hb | hb | hb <;>
    rcases positionStep_trace_shape cfg hnd
        (buttonStep hnd { s with currentX := inp.rawX, currentY := inp.rawY } inp).1
        inp with hp | hp | ⟨p, hp⟩ <;>
      rw [hb, hp] <;>
      first
        | rfl
        | (cases p <;> rfl)

/-- Claim C4: on a poll whose classified position differs from the stable
position with the debounce window elapsed, exactly the handler registered
for the new position is invoked (none when that slot is unregistered), and
the stable position and its timestamp are committed to the new values. -/
theorem confirmed_position_transition_dispatch
    (cfg : Config) (hnd : Handlers) (s : State) (inp : PollInput)
    (hne : calculatePosition cfg inp.rawX inp.rawY ≠ s.previousPosition)
    (hdb : debounceDelay < wsub inp.now s.lastPositionTime) :
    ((update cfg hnd s inp).2.filter isPosInvokeEvent =
      if posRegistered hnd (calculatePosition cfg inp.rawX inp.rawY) then
        [posInvoke (calculatePosition cfg inp.rawX inp.rawY)]
      else []) ∧
    (update cfg hnd s inp).1.previousPosition =
      calculatePosition cfg inp.rawX inp.rawY ∧
    (update cfg hnd s inp).1.lastPositionTime = inp.now := by
  have hp : calculatePosition cfg inp.rawX inp.rawY ≠ s.previousPosition ∧
      debounceDelay < wsub inp.now s.lastPositionTime := ⟨hne, hdb⟩
  refine ⟨?_, ?_, ?_⟩
  · rw [update_eq]
    dsimp only
    rw [if_pos hp, List.filter_append, filter_pos_button_trace,
      List.filter_append, invokeEvents_filter_pos, invokeEvents_eq]
    split <;> rfl
  · rw [update_eq]
    dsimp only
    rw [if_pos hp]
  · rw [update_eq]
    dsimp only
    rw [if_pos hp]

/-- Witness for C4 at a concrete confirmed transition back to Center: the
Center handler fires and the stable state is committed. -/
theorem confirmed_position_transition_dispatch_witness :
    ((update ⟨0, 4095, 2000, 500, false, false⟩
        ⟨true, true, true, true, true, true⟩
        ⟨2600, 2000, false, JoystickPosition.right, JoystickPosition.right,
          false, 0, 0⟩
        ⟨100, 2000, 2000, false⟩).2.filter isPosInvokeEvent =
      [JEvent.invokeCenter]) ∧
    (update ⟨0, 4095, 2000, 500, false, false⟩
        ⟨true, true, true, true, true, true⟩
        ⟨2600, 2000, false, JoystickPosition.right, JoystickPosition.right,
          false, 0, 0⟩
        ⟨100, 2000, 2000, false⟩).1.previousPosition =
      JoystickPosition.center ∧
    (update ⟨0, 4095, 2000, 500, false, false⟩
        ⟨true, true, true, true, true, true⟩
        ⟨2600, 2000, false, JoystickPosition.right, JoystickPosition.right,
          false, 0, 0⟩
        ⟨100, 2000, 2000, false⟩).1.lastPositionTime = 100 := by
  have h := confirmed_position_transition_dispatch
    ⟨0, 4095, 2000, 500, false, false⟩
    ⟨true, true, true, true, true, true⟩
    ⟨2600, 2000, false, JoystickPosition.right, JoystickPosition.right,
      false, 0, 0⟩
    ⟨100, 2000, 2000, false⟩ (by decide) (by decide)
  exact ⟨h.1, h.2.1, h.2.2⟩

/-- Claim C5: on a poll where every channel whose instantaneous reading
differs from its stable value is still inside the debounce window, no
handler is invoked and the dispatcher state is unchanged: stable position,
stable button and both last-change timestamps keep their values, so the
dropped reading does not re-arm the debounce timer. -/
theorem debounced_reading_dropped_without_rearm
    (cfg : Config) (hnd : Handlers) (s : State) (inp : PollInput)
    (hb : inp.switchLow ≠ s.previousSwitch →
      ¬ debounceDelay < wsub inp.now s.lastSwitchTime)
    (hp : calculatePosition cfg inp.rawX inp.rawY ≠ s.previousPosition →
      ¬ debounceDelay < wsub inp.now s.lastPositionTime)
    (_hdiff : inp.switchLow ≠ s.previousSwitch ∨
      calculatePosition cfg inp.rawX inp.rawY ≠ s.previousPosition) :
    (update cfg hnd s inp).2 = [] ∧
    (update cfg hnd s inp).1.previousPosition = s.previousPosition ∧
    (update cfg hnd s inp).1.previousSwitch = s.previousSwitch ∧
    (update cfg hnd s inp).1.lastPositionTime = s.lastPositionTime ∧
    (update cfg hnd s inp).1.lastSwitchTime = s.lastSwitchTime := by
  have h1 : ¬(inp.switchLow ≠ s.previousSwitch ∧
      debounceDelay < wsub inp.now s.lastSwitchTime) := fun h => hb h.1 h.2
  have h2 : ¬(calculatePosition cfg inp.rawX inp.rawY ≠ s.previousPosition ∧
      debounceDelay < wsub inp.now s.lastPositionTime) := fun h => hp h.1 h.2
  rw [update_eq]
  dsimp only
  simp only [if_neg h1, if_neg h2]
  simp

/-- Witness for C5: a position flicker to Right 10 time-units after the
last confirmed change is dropped with no state change and no events. -/
theorem debounced_reading_dropped_without_rearm_witness :
    (update ⟨0, 4095, 2000, 500, false, false⟩
        ⟨true, true, true, true, true, true⟩
        ⟨2000, 2000, false, JoystickPosition.center, JoystickPosition.center,
          false, 0, 0⟩
        ⟨10, 2600, 2000, false⟩).2 = [] ∧
    (update ⟨0, 4095, 2000, 500, false, false⟩
        ⟨true, true, true, true, true, true⟩
        ⟨2000, 2000, false, JoystickPosition.center, JoystickPosition.center,
          false, 0, 0⟩
        ⟨10, 2600, 2000, false⟩).1.previousPosition =
      JoystickPosition.center := by
  have h := debounced_reading_dropped_without_rearm
    ⟨0, 4095, 2000, 500, false, false⟩
    ⟨true, true, true, true, true, true⟩
    ⟨2000, 2000, false, JoystickPosition.center, JoystickPosition.center,
      false, 0, 0⟩
    ⟨10, 2600, 2000, false⟩
    (fun hq => absurd rfl hq) (fun _ => by decide) (Or.inr (by decide))
  exact ⟨h.1, h.2.1⟩

/-- Claim C8: on a confirmed button edge (reading differs from the stable
button and the debounce window has elapsed), the registered switch handler
is invoked exactly when the new state is pressed; both presses and releases
commit `stableButton` and the button timestamp, so a release changes state
silently. -/
theorem confirmed_button_edge_dispatch
    (cfg : Config) (hnd : Handlers) (s : State) (inp : PollInput)
    (hreg : hnd.switch = true)
    (hd : inp.switchLow ≠ s.previousSwitch)
    (hw : debounceDelay < wsub inp.now s.lastSwitchTime) :
    ((update cfg hnd s inp).2.filter isButtonInvokeEvent =
      if inp.switchLow = true then [JEvent.invokeSwitch] else []) ∧
    (update cfg hnd s inp).1.previousSwitch = inp.switchLow ∧
    (update cfg hnd s inp).1.lastSwitchTime = inp.now := by
  have h1 : inp.switchLow ≠ s.previousSwitch ∧
      debounceDelay < wsub inp.now s.lastSwitchTime := ⟨hd, hw⟩
  refine ⟨?_, ?_, ?_⟩
  · rw [update_eq]
    dsimp only
    rw [if_pos h1, List.filter_append, filter_button_pos_trace,
      List.append_nil, List.filter_append]
    cases hsw : inp.switchLow
    · have hno : ¬(false = true ∧ s.previousSwitch = false) := by
        simp
      rw [if_neg hno]
      rfl
    · have hprev : s.previousSwitch = false := by
        cases hpv : s.previousSwitch
        · rfl
        · exact absurd (hsw.trans hpv.symm) hd
      rw [if_pos ⟨rfl, hprev⟩, hreg]
      rfl
  · rw [update_eq]
    dsimp only
    rw [if_pos h1]
  · rw [update_eq]
    dsimp only
    rw [if_pos h1]

/-- Witness for C8 at a concrete confirmed press: the switch handler fires
and the stable button state and timestamp are committed. -/
theorem confirmed_button_edge_dispatch_witness :
    ((update ⟨0, 4095, 2000, 500, false, false⟩
        ⟨true, true, true, true, true, true⟩
        ⟨2000, 2000, false, JoystickPosition.center, JoystickPosition.center,
          false, 0, 0⟩
        ⟨100, 2000, 2000, true⟩).2.filter isButtonInvokeEvent =
      [JEvent.invokeSwitch]) ∧
    (update ⟨0, 4095, 2000, 500, false, false⟩
        ⟨true, true, true, true, true, true⟩
        ⟨2000, 2000, false, JoystickPosition.center, JoystickPosition.center,
          false, 0, 0⟩
        ⟨100, 2000, 2000, true⟩).1.previousSwitch = true ∧
    (update ⟨0, 4095, 2000, 500, false, false⟩
        ⟨true, true, true, true, true, true⟩
        ⟨2000, 2000, false, JoystickPosition.center, JoystickPosition.center,
          false, 0, 0⟩
        ⟨100, 2000, 2000, true⟩).1.lastSwitchTime = 100 := by
  have h := confirmed_button_edge_dispatch
    ⟨0, 4095, 2000, 500, false, false⟩
    ⟨true, true, true, true, true, true⟩
    ⟨2000, 2000, false, JoystickPosition.center, JoystickPosition.center,
      false, 0, 0⟩
    ⟨100, 2000, 2000, true⟩ rfl (by decide) (by decide)
  exact ⟨h.1, h.2.1, h.2.2⟩

/-- Claim C10: `isSwitchPressed` returns the instantaneous raw button
reading of the most recent poll, stored on every poll regardless of the
debounce check (and can therefore differ from the debounced stable button
state), while `getPosition` changes only on debounce-confirmed
transitions. -/
theorem raw_switch_vs_debounced_position (cfg : Config) (hnd : Handlers)
    (s : State) (inp : PollInput) :
    isSwitchPressed (update cfg hnd s inp).1 = inp.switchLow ∧
    getPosition (update cfg hnd s inp).1 =
      (if calculatePosition cfg inp.rawX inp.rawY ≠ s.previousPosition ∧
          debounceDelay < wsub inp.now s.lastPositionTime then
        calculatePosition cfg inp.rawX inp.rawY
      else getPosition s) ∧
    (∃ cfg2 hnd2 s2 inp2,
      isSwitchPressed (update cfg2 hnd2 s2 inp2).1 ≠
        (update cfg2 hnd2 s2 inp2).1.previousSwitch) := by
  refine ⟨?_, ?_,
    ⟨⟨0, 4095, 2000, 500, false, false⟩,
      ⟨true, true, true, true, true, true⟩,
      ⟨2000, 2000, false, JoystickPosition.center, JoystickPosition.center,
        false, 0, 0⟩,
      ⟨10, 2000, 2000, true⟩, by decide⟩⟩
  · rw [update_eq]
    rfl
  · rw [update_eq]
    rfl

end ThermoHub8
